import Mathlib

/-!
Shallow embedding of the birth-registration service in `src/main.py`:
the pydantic `BirthData` validator, the sqlite-backed record store with its
handlers (`save_data`, `search_data`, `delete_old_entries`), and the
fixed-window `rate_limit` decorator.  Machine details that the claims rely
on are modelled explicitly: ISO-8601 timestamps compare lexicographically in
the same order as the instants they denote, so timestamps are modelled by
`Nat` seconds; sqlite's `INTEGER PRIMARY KEY AUTOINCREMENT` is modelled by a
`next_id` counter that only ever grows.
-/

namespace BirthRegistry

/-! ## Validator (pydantic model `BirthData`, src/main.py lines 47-54) -/

/-- First admissible id-type literal (src/main.py line 48/50). -/
def idTypeUnified : String := "رقم الموحدة"

/-- Second admissible id-type literal (src/main.py line 48/50). -/
def idTypeCivil : String := "رقم هوية الأحوال"

/-- Membership in the two-value `Literal[...]` enumeration of id types. -/
def validIdType (s : String) : Bool :=
  s == idTypeUnified || s == idTypeCivil

/-- Length constraint `min_length=2, max_length=100` on `mother_name` and
`hospital_name` (src/main.py lines 52-53).  `String.length` counts unicode
code points, as python `len` does on `str`. -/
def validNameLen (s : String) : Bool :=
  2 ≤ s.length && s.length ≤ 100

/-- The lexical pattern `^\d{4}-\d{2}-\d{2}$` on `birth_date`
(src/main.py line 54): exactly ten characters, digits in positions 0-3, 5-6
and 8-9, a dash in positions 4 and 7.  `\d` is modelled as the ASCII digits;
the claims only exercise ASCII inputs. -/
def matchesDatePattern (s : String) : Bool :=
  match s.data with
  | [y1, y2, y3, y4, d1, m1, m2, d2, a1, a2] =>
      y1.isDigit && y2.isDigit && y3.isDigit && y4.isDigit &&
      d1 == '-' && m1.isDigit && m2.isDigit &&
      d2 == '-' && a1.isDigit && a2.isDigit
  | _ => false

/-- Raw (pre-validation) submission fields.  The two numeric id fields are
`Option Int`: `none` models a field that is absent or not an integer, which
pydantic rejects for a required `int` field; the remaining fields arrive as
text. -/
structure RawSubmission where
  father_id_type : String
  father_id : Option Int
  mother_id_type : String
  mother_id : Option Int
  mother_name : String
  hospital_name : String
  birth_date : String
deriving DecidableEq

/-- The pydantic validation of `BirthData` (src/main.py lines 47-54): each
field check in model order; the first failing field yields a
`ValidationError` carrying a human-readable reason.  Pure function of the
submission. -/
def validate (r : RawSubmission) : Except String Unit :=
  if ¬ validIdType r.father_id_type then
    .error "father_id_type: not one of the two admissible literals"
  else if r.father_id.isNone then
    .error "father_id: field required and must be an integer"
  else if ¬ validIdType r.mother_id_type then
    .error "mother_id_type: not one of the two admissible literals"
  else if r.mother_id.isNone then
    .error "mother_id: field required and must be an integer"
  else if ¬ validNameLen r.mother_name then
    .error "mother_name: length must be in [2,100]"
  else if ¬ validNameLen r.hospital_name then
    .error "hospital_name: length must be in [2,100]"
  else if ¬ matchesDatePattern r.birth_date then
    .error "birth_date: must match YYYY-MM-DD"
  else
    .ok ()

/-- A validated submission, as the handler `save_data` receives it:
all fields typed, id types inside the enumeration is re-checked by the
handler itself (src/main.py lines 127-130). -/
structure BirthData where
  father_id_type : String
  father_id : Int
  mother_id_type : String
  mother_id : Int
  mother_name : String
  hospital_name : String
  birth_date : String
deriving DecidableEq

/-! ## Calendar validity (not checked by the code)

Modelled from the spec: "calendar validity of the date is NOT checked — only
the lexical pattern".  The definitions below say what a calendar-valid date
would be; they appear only in hypotheses of claims, never in the embedded
code. -/

/-- Numeric value of an ASCII digit character. -/
def digitVal (c : Char) : Nat := c.toNat - '0'.toNat

/-- Gregorian leap-year rule. -/
def isLeapYear (y : Nat) : Bool :=
  (y % 4 == 0 && y % 100 != 0) || y % 400 == 0

/-- Days in a month of the Gregorian calendar. -/
def daysInMonth (y m : Nat) : Nat :=
  if m == 2 then (if isLeapYear y then 29 else 28)
  else if m == 4 || m == 6 || m == 9 || m == 11 then 30
  else 31

/-- Modelled from the spec: a ten-character `YYYY-MM-DD` string denotes a
calendar-valid date when its month is in 1..12 and its day is in
1..daysInMonth. -/
def isCalendarValid (s : String) : Bool :=
  match s.data with
  | [y1, y2, y3, y4, dash1, m1, m2, dash2, a1, a2] =>
      if (y1.isDigit && y2.isDigit && y3.isDigit && y4.isDigit &&
          dash1 == '-' && m1.isDigit && m2.isDigit &&
          dash2 == '-' && a1.isDigit && a2.isDigit) then
        let y := ((digitVal y1 * 10 + digitVal y2) * 10 + digitVal y3) * 10 + digitVal y4
        let m := digitVal m1 * 10 + digitVal m2
        let d := digitVal a1 * 10 + digitVal a2
        1 ≤ m && m ≤ 12 && 1 ≤ d && d ≤ daysInMonth y m
      else false
  | _ => false

/-! ## Record store (sqlite table `births`, src/main.py lines 65-75)

The table has columns `id, father_id, mother_id, mother_name, hospital_name,
birth_date, created_at` — note: no id-type columns.  `id INTEGER PRIMARY KEY
AUTOINCREMENT` never reuses a rowid, modelled by the strictly increasing
`next_id`; sqlite assigns 1 to the first row. -/

/-- One persisted row of the `births` table. -/
structure Row where
  id : Nat
  father_id : Int
  mother_id : Int
  mother_name : String
  hospital_name : String
  birth_date : String
  created_at : Nat
deriving DecidableEq

/-- The persistent store: the table rows in insertion order plus the
autoincrement counter. -/
structure Store where
  rows : List Row
  next_id : Nat
deriving DecidableEq

/-- The store of a freshly created database: no rows, first id will be 1. -/
def initStore : Store := ⟨[], 1⟩

/-- Query `SELECT * FROM births WHERE father_id = ? AND mother_id = ?`
(src/main.py lines 136-139 and 194-197): all rows matching both ids. -/
def findByParents (st : Store) (fid mid : Int) : List Row :=
  st.rows.filter (fun r => r.father_id == fid && r.mother_id == mid)

/-- An `HTTPException(status_code, detail)` as raised by the handlers. -/
structure HttpError where
  status_code : Nat
  detail : String
deriving DecidableEq

/-- Python `str(e)` on a starlette `HTTPException`:
`f"{status_code}: {detail}"`. -/
def strOfError (e : HttpError) : String :=
  toString e.status_code ++ ": " ++ e.detail

/-- The blanket `except Exception as e: raise HTTPException(500, str(e))`
wrapper that every handler body is inside (src/main.py lines 159-161,
184-186, 205-207).  `HTTPException` subclasses `Exception`, so the
handler's own 400/404 exceptions are caught and re-raised with status 500. -/
def wrap500 {α : Type} : Except HttpError α → Except HttpError α
  | .ok a => .ok a
  | .error e => .error ⟨500, strOfError e⟩

/-- Detail text of the duplicate error (src/main.py line 145): names the
hospital of the existing row. -/
def dupMsg (hospital : String) : String :=
  "تم إدخال هذه البيانات بالفعل في مستشفى " ++ hospital

/-- The body of the `try:` block of `save_data` (src/main.py lines 125-157):
re-check the two id types (400 on failure), look up the pair (first matching
row, as `fetchone` returns), raise 400 naming the existing hospital on a
duplicate, otherwise insert the new row with the server-assigned
`created_at` and report success. -/
def save_data_body (st : Store) (d : BirthData) (now : Nat) :
    Except HttpError (Store × String) :=
  if ¬ validIdType d.father_id_type then
    .error ⟨400, "نوع رقم الأب غير صحيح."⟩
  else if ¬ validIdType d.mother_id_type then
    .error ⟨400, "نوع رقم الأم غير صحيح."⟩
  else
    match (findByParents st d.father_id d.mother_id).head? with
    | some row =>
        .error ⟨400, dupMsg row.hospital_name⟩
    | none =>
        let newRow : Row :=
          { id := st.next_id
            father_id := d.father_id
            mother_id := d.mother_id
            mother_name := d.mother_name
            hospital_name := d.hospital_name
            birth_date := d.birth_date
            created_at := now }
        .ok (⟨st.rows ++ [newRow], st.next_id + 1⟩, "تم حفظ البيانات بنجاح")

/-- The `save_data` handler as the caller observes it: the body inside the
blanket 500 wrapper (src/main.py lines 124-161).  On error no row was
inserted, so no store is returned. -/
def save_data (st : Store) (d : BirthData) (now : Nat) :
    Except HttpError (Store × String) :=
  wrap500 (save_data_body st d now)

/-- The body of `search_data` (src/main.py lines 191-203): fetch all rows
matching both ids; 404 when none. -/
def search_data_body (st : Store) (fid mid : Int) :
    Except HttpError (List Row) :=
  let result := findByParents st fid mid
  if result.isEmpty then
    .error ⟨404, "لم يتم العثور على بيانات."⟩
  else
    .ok result

/-- The `search_data` handler as the caller observes it (src/main.py lines
188-207): the body inside the blanket 500 wrapper. -/
def search_data (st : Store) (fid mid : Int) : Except HttpError (List Row) :=
  wrap500 (search_data_body st fid mid)

/-- Thirty days in seconds, the retention window of `delete_old_entries`
(src/main.py line 169: `datetime.now() - timedelta(days=30)`). -/
def thirtyDays : Nat := 30 * 86400

/-- The `delete_old_entries` handler (src/main.py lines 163-186): compute
`cutoff = now - 30 days`, `DELETE FROM births WHERE created_at < cutoff`,
return the new store and `cursor.rowcount`, the number of rows deleted.
The body raises nothing, so the 500 wrapper never fires.  A row is deleted
exactly when `olderThan cutoff` holds of it; the store keeps the rest,
`cursor.rowcount` reports how many the `DELETE` removed. -/
def olderThan (cutoff : Nat) (r : Row) : Bool :=
  r.created_at < cutoff

/-- The `delete_old_entries` handler itself: see `olderThan`. -/
def delete_old_entries (st : Store) (now : Nat) : Store × Nat :=
  let cutoff := now - thirtyDays
  (⟨st.rows.filter (fun r => ! olderThan cutoff r), st.next_id⟩,
   (st.rows.filter (olderThan cutoff)).length)

/-! ## Rate limiter (`rate_limit` decorator, src/main.py lines 90-115)

Per wrapped endpoint the decorator keeps `last_reset` and `call_count`,
absent until the first call.  `time.time()` is modelled by `Nat` seconds;
with monotone clocks `now - last_reset >= period` agrees with the python
float comparison. -/

/-- The per-endpoint state of the limiter once the endpoint has been seen:
`last_reset[name]` and `call_count[name]`. -/
structure Window where
  last_reset : Nat
  call_count : Nat
deriving DecidableEq

/-- One call through the `rate_limit(calls, period)` wrapper (src/main.py
lines 96-113) for a single endpoint.  `st = none` models an endpoint absent
from the dictionaries (first call initializes the window at the call's own
timestamp).  Returns whether the call is allowed through, and the state the
dictionaries hold afterwards. -/
def rateLimitStep (calls period : Nat) (st : Option Window) (now : Nat) :
    Bool × Window :=
  let w : Window := match st with
    | none => ⟨now, 0⟩
    | some w => w
  let w : Window := if period ≤ now - w.last_reset then ⟨now, 0⟩ else w
  if calls ≤ w.call_count then
    (false, w)
  else
    (true, ⟨w.last_reset, w.call_count + 1⟩)

/-- A sequence of calls at the given timestamps, threading the limiter
state; yields the allow/reject outcome of each call and the final state. -/
def runCalls (calls period : Nat) : Option Window → List Nat → List Bool × Option Window
  | st, [] => ([], st)
  | st, t :: ts =>
      let step := rateLimitStep calls period st t
      let rest := runCalls calls period (some step.2) ts
      (step.1 :: rest.1, rest.2)

/-- Convenience: the outcomes alone of a call sequence against a fresh
(never-called) endpoint. -/
def callOutcomes (calls period : Nat) (ts : List Nat) : List Bool :=
  (runCalls calls period none ts).1

/-! ## Interleaved submissions (src/main.py lines 132-154 under concurrency)

The duplicate check (the `SELECT`, lines 136-140) and the insert (the
`INSERT`, lines 150-154) are two separate trips to the shared sqlite store;
the table has no unique constraint on `(father_id, mother_id)` (lines
65-75) and the handler takes no lock, so when two submissions run
concurrently their check and insert steps can interleave at the store.
Each submission is two atomic store actions: `check` reads the duplicate
lookup result, `insert` then either fails with the duplicate error or
inserts. -/

/-- Progress of one in-flight submission: which program point it is at,
what its duplicate check returned, and its final outcome. -/
structure Thread where
  data : BirthData
  now : Nat
  pc : Nat
  checkResult : Option (Option String)
  outcome : Option (Except HttpError String)

/-- A submission about to run, before its first store action. -/
def mkThread (d : BirthData) (now : Nat) : Thread :=
  ⟨d, now, 0, none, none⟩

/-- One atomic store action of a submission (id-type validation, which
touches no shared state, is taken as already passed).  `pc = 0`: perform
the duplicate `SELECT` and remember `fetchone`'s hospital name, if any.
`pc = 1`: if the check saw a row, raise the duplicate error; otherwise
perform the `INSERT`.  Afterwards the thread is done (`pc = 2`). -/
def threadStep (st : Store) (t : Thread) : Store × Thread :=
  match t.pc with
  | 0 =>
      let found := (findByParents st t.data.father_id t.data.mother_id).head?
      (st, { t with pc := 1, checkResult := some (found.map Row.hospital_name) })
  | 1 =>
      match t.checkResult with
      | some (some hosp) =>
          (st, { t with pc := 2, outcome := some (.error ⟨400, dupMsg hosp⟩) })
      | _ =>
          let newRow : Row :=
            { id := st.next_id
              father_id := t.data.father_id
              mother_id := t.data.mother_id
              mother_name := t.data.mother_name
              hospital_name := t.data.hospital_name
              birth_date := t.data.birth_date
              created_at := t.now }
          (⟨st.rows ++ [newRow], st.next_id + 1⟩,
           { t with pc := 2, outcome := some (.ok "تم حفظ البيانات بنجاح") })
  | _ => (st, t)

/-- Run two concurrent submissions under a schedule: `false` picks a step of
the first thread, `true` a step of the second. -/
def runSchedule (sched : List Bool) (st : Store) (t1 t2 : Thread) :
    Store × Thread × Thread :=
  match sched with
  | [] => (st, t1, t2)
  | b :: rest =>
      if b then
        let step := threadStep st t2
        runSchedule rest step.1 t1 step.2
      else
        let step := threadStep st t1
        runSchedule rest step.1 step.2 t2

/-! ## Operation traces (for id assignment) -/

/-- One store-touching operation of the service. -/
inductive Op where
  | submit (d : BirthData) (now : Nat)
  | purge (now : Nat)
deriving DecidableEq

/-- Apply one operation to the store; a rejected submission (duplicate or
bad id type) leaves the store unchanged. -/
def applyOp (st : Store) : Op → Store
  | .submit d now =>
      match save_data_body st d now with
      | .ok (st', _) => st'
      | .error _ => st
  | .purge now => (delete_old_entries st now).1

/-- The store after a trace of operations. -/
def runOps (st : Store) : List Op → Store
  | [] => st
  | op :: ops => runOps (applyOp st op) ops

/-- The id the store assigns at each successful insert of the trace, in
order.  A purge assigns none; `AUTOINCREMENT` keeps `next_id` untouched. -/
def assignedIds (st : Store) : List Op → List Nat
  | [] => []
  | op :: ops =>
      match op with
      | .submit d now =>
          match save_data_body st d now with
          | .ok (st', _) => st.next_id :: assignedIds st' ops
          | .error _ => assignedIds st ops
      | .purge now => assignedIds (delete_old_entries st now).1 ops

/-! ## Theorems -/

/-- C5: the Validator fails with a `ValidationError` exactly when an
id-type field is outside the two-value enumeration, a mother-name or
hospital-name field has length outside [2,100], the birth-date field does
not match the lexical `YYYY-MM-DD` pattern, or a required numeric id field
is absent or non-integer.  `validate` is a Lean function, hence a pure
function of its input with no side effects. -/
theorem validate_error_iff (r : RawSubmission) :
    (∃ msg, validate r = .error msg) ↔
      (validIdType r.father_id_type = false ∨ validIdType r.mother_id_type = false
       ∨ validNameLen r.mother_name = false ∨ validNameLen r.hospital_name = false
       ∨ matchesDatePattern r.birth_date = false
       ∨ r.father_id = none ∨ r.mother_id = none) := by
  unfold validate
  split_ifs with h1 h2 h3 h4 h5 h6 h7 <;>
    simp_all [Bool.not_eq_true, Option.isNone_iff_eq_none]

/-- C6: every birth-date string that matches the lexical pattern is
accepted by validation, whether or not it is a calendar-valid date — only
the lexical pattern is checked. -/
theorem pattern_only_date_accepted (r : RawSubmission)
    (h1 : validIdType r.father_id_type = true)
    (h2 : r.father_id.isSome = true)
    (h3 : validIdType r.mother_id_type = true)
    (h4 : r.mother_id.isSome = true)
    (h5 : validNameLen r.mother_name = true)
    (h6 : validNameLen r.hospital_name = true)
    (hpat : matchesDatePattern r.birth_date = true)
    (_hcal : isCalendarValid r.birth_date = false) :
    validate r = .ok () := by
  unfold validate
  simp [h1, h3, h5, h6, hpat,
    Option.isNone_iff_eq_none, Option.isSome_iff_exists] at *
  split_ifs with hf hm <;> simp_all

/-- Witness for C6 at the spec's own boundary example: `"2024-13-40"`
matches the lexical pattern, is not calendar-valid, and is accepted. -/
theorem pattern_only_date_accepted_witness :
    matchesDatePattern "2024-13-40" = true
    ∧ isCalendarValid "2024-13-40" = false
    ∧ validate ⟨idTypeUnified, some 11, idTypeCivil, some 12,
        "ام الطفل", "مستشفى بغداد", "2024-13-40"⟩ = .ok () :=
  ⟨by decide, by decide,
   pattern_only_date_accepted _ (by decide) (by decide) (by decide) (by decide)
     (by decide) (by decide) (by decide) (by decide)⟩

/-- C1 (code bug): a submission whose `(fatherId, motherId)` matches a
persisted row is rejected without inserting, and the duplicate error names
the existing row's hospital — but the blanket `except Exception` of
`save_data` re-raises the handler's own `HTTPException(400, ...)` as a 500,
so the caller sees a server error, not the claimed 400 client error. -/
theorem duplicate_surfaced_as_500 :
    save_data_body ⟨[⟨1, 10, 20, "ام علي", "مستشفى الأول", "2024-01-01", 1000⟩], 2⟩
        ⟨idTypeUnified, 10, idTypeUnified, 20, "ام علي", "مستشفى الثاني", "2024-02-02"⟩ 2000
      = .error ⟨400, dupMsg "مستشفى الأول"⟩
    ∧ save_data ⟨[⟨1, 10, 20, "ام علي", "مستشفى الأول", "2024-01-01", 1000⟩], 2⟩
        ⟨idTypeUnified, 10, idTypeUnified, 20, "ام علي", "مستشفى الثاني", "2024-02-02"⟩ 2000
      = .error ⟨500, "400: " ++ dupMsg "مستشفى الأول"⟩ :=
  ⟨rfl, rfl⟩

/-- C2 (code bug): a search on a pair no persisted record matches raises
the handler's own `HTTPException(404, ...)`, but the blanket
`except Exception` of `search_data` re-raises it as a 500, so the caller
sees a server error, not the claimed 404. -/
theorem notfound_surfaced_as_500 :
    search_data_body initStore 1 2 = .error ⟨404, "لم يتم العثور على بيانات."⟩
    ∧ search_data initStore 1 2 = .error ⟨500, "404: لم يتم العثور على بيانات."⟩ :=
  ⟨rfl, rfl⟩

/-- Splitting a row list by `olderThan`: the deleted and the kept rows
together account for every row, and no kept row is still older than the
cutoff. -/
lemma olderThan_filter_split (l : List Row) (c : Nat) :
    (l.filter (olderThan c)).length + (l.filter (fun r => ! olderThan c r)).length
        = l.length
    ∧ (l.filter (fun r => ! olderThan c r)).filter (olderThan c) = [] := by
  induction l with
  | nil => simp
  | cons a l ih =>
      by_cases h : olderThan c a = true <;>
        simp [h, List.filter_cons, ih.1, ih.2] <;> omega

/-- C7: purge computes `cutoff = now - 30 days`, keeps exactly the rows
whose `created_at` does not precede the cutoff (all younger rows unchanged,
in order), returns as count exactly the number of rows it deleted, and an
immediately repeated purge deletes nothing and returns 0 — in particular a
purge with no matching row returns 0. -/
theorem purge_deletes_exactly_old (st : Store) (now : Nat) :
    (delete_old_entries st now).1.rows
        = st.rows.filter (fun r => ! olderThan (now - thirtyDays) r)
    ∧ (delete_old_entries st now).2
        = (st.rows.filter (olderThan (now - thirtyDays))).length
    ∧ (delete_old_entries st now).2 + (delete_old_entries st now).1.rows.length
        = st.rows.length
    ∧ delete_old_entries (delete_old_entries st now).1 now
        = ((delete_old_entries st now).1, 0) := by
  refine ⟨rfl, rfl, (olderThan_filter_split st.rows (now - thirtyDays)).1, ?_⟩
  unfold delete_old_entries
  simp [List.filter_filter, (olderThan_filter_split st.rows (now - thirtyDays)).2]

/-- Anatomy of a successful `save_data_body`: both id types were admissible,
the duplicate lookup was empty, and the new store is the old rows plus one
row holding exactly the six persisted columns (no id-type columns), with the
autoincrement id advanced. -/
lemma save_data_body_ok (st : Store) (d : BirthData) (now : Nat)
    (st' : Store) (msg : String)
    (h : save_data_body st d now = .ok (st', msg)) :
    validIdType d.father_id_type = true
    ∧ validIdType d.mother_id_type = true
    ∧ findByParents st d.father_id d.mother_id = []
    ∧ st'.rows = st.rows ++ [⟨st.next_id, d.father_id, d.mother_id,
        d.mother_name, d.hospital_name, d.birth_date, now⟩]
    ∧ st'.next_id = st.next_id + 1 := by
  unfold save_data_body at h
  split_ifs at h with h1 h2
  rcases hh : (findByParents st d.father_id d.mother_id).head? with _ | row
  · rw [hh] at h
    simp only [Except.ok.injEq, Prod.mk.injEq] at h
    refine ⟨by simpa using h1, by simpa using h2,
      List.head?_eq_none_iff.mp hh, ?_, ?_⟩
    · rw [← h.1]
    · rw [← h.1]
  · rw [hh] at h
    exact absurd h (by simp)

/-- Appending a row matching the searched pair to a store with no match
makes it the unique (hence first) search result. -/
lemma findByParents_append_match (st : Store) (fid mid : Int) (row : Row)
    (hrow : row.father_id = fid ∧ row.mother_id = mid)
    (hempty : findByParents st fid mid = []) :
    findByParents ⟨st.rows ++ [row], st.next_id + 1⟩ fid mid = [row] := by
  unfold findByParents at *
  simp only [List.filter_append, hempty, List.nil_append]
  simp [hrow.1, hrow.2]

/-- C10: the id-type fields are validated but never persisted — the row a
successful submission stores holds only the six id-type-free columns — and
duplicate detection keys on `(fatherId, motherId)` alone: a second
submission with the same two ids but different (admissible) id-type values
is rejected as a duplicate naming the first submission's hospital. -/
theorem idtype_not_persisted_dedup_on_ids (st : Store) (d1 d2 : BirthData)
    (now1 now2 : Nat) (st' : Store) (msg : String)
    (h1 : save_data_body st d1 now1 = .ok (st', msg))
    (hft : validIdType d2.father_id_type = true)
    (hmt : validIdType d2.mother_id_type = true)
    (hf : d2.father_id = d1.father_id)
    (hm : d2.mother_id = d1.mother_id) :
    st'.rows = st.rows ++ [⟨st.next_id, d1.father_id, d1.mother_id,
        d1.mother_name, d1.hospital_name, d1.birth_date, now1⟩]
    ∧ save_data_body st' d2 now2 = .error ⟨400, dupMsg d1.hospital_name⟩ := by
  obtain ⟨-, -, hempty, hrows, hnext⟩ := save_data_body_ok st d1 now1 st' msg h1
  refine ⟨hrows, ?_⟩
  have hfind : findByParents st' d2.father_id d2.mother_id
      = [⟨st.next_id, d1.father_id, d1.mother_id,
          d1.mother_name, d1.hospital_name, d1.birth_date, now1⟩] := by
    have hst' : st' = ⟨st.rows ++ [⟨st.next_id, d1.father_id, d1.mother_id,
        d1.mother_name, d1.hospital_name, d1.birth_date, now1⟩], st.next_id + 1⟩ := by
      cases st'
      simp_all
    rw [hst', hf, hm]
    exact findByParents_append_match st d1.father_id d1.mother_id _ ⟨rfl, rfl⟩ hempty
  unfold save_data_body
  rw [if_neg (by simp [hft]), if_neg (by simp [hmt]), hfind]
  rfl

/-- Witness for C10: after submitting ids `(10, 20)` with the unified
id types, resubmitting the same ids with the civil-registry id types is
rejected as a duplicate naming the first hospital. -/
theorem idtype_not_persisted_dedup_on_ids_witness :
    save_data_body initStore
        ⟨idTypeUnified, 10, idTypeUnified, 20, "ام حسن", "مستشفى أ", "2024-01-01"⟩ 100
      = .ok (⟨[⟨1, 10, 20, "ام حسن", "مستشفى أ", "2024-01-01", 100⟩], 2⟩,
             "تم حفظ البيانات بنجاح")
    ∧ ((⟨[⟨1, 10, 20, "ام حسن", "مستشفى أ", "2024-01-01", 100⟩], 2⟩ : Store).rows
        = initStore.rows ++ [⟨1, 10, 20, "ام حسن", "مستشفى أ", "2024-01-01", 100⟩]
       ∧ save_data_body ⟨[⟨1, 10, 20, "ام حسن", "مستشفى أ", "2024-01-01", 100⟩], 2⟩
           ⟨idTypeCivil, 10, idTypeCivil, 20, "ام حسين", "مستشفى ب", "2024-02-02"⟩ 200
         = .error ⟨400, dupMsg "مستشفى أ"⟩) :=
  ⟨rfl, idtype_not_persisted_dedup_on_ids initStore
      ⟨idTypeUnified, 10, idTypeUnified, 20, "ام حسن", "مستشفى أ", "2024-01-01"⟩
      ⟨idTypeCivil, 10, idTypeCivil, 20, "ام حسين", "مستشفى ب", "2024-02-02"⟩
      100 200 _ _ rfl (by decide) (by decide) rfl rfl⟩

/-- Every id a trace assigns is at least the store's current autoincrement
counter. -/
lemma assignedIds_lower_bound :
    ∀ (ops : List Op) (st : Store), ∀ i ∈ assignedIds st ops, st.next_id ≤ i := by
  intro ops
  induction ops with
  | nil => intro st i hi; simp [assignedIds] at hi
  | cons op ops ih =>
      intro st i hi
      cases op with
      | submit d now =>
          rcases h : save_data_body st d now with e | ⟨st', msg⟩
          · rw [assignedIds, h] at hi
            exact ih st i hi
          · rw [assignedIds, h] at hi
            rcases List.mem_cons.mp hi with rfl | hi'
            · exact le_refl _
            · have := ih st' i hi'
              have hnext := (save_data_body_ok st d now st' msg h).2.2.2.2
              omega
      | purge now =>
          rw [assignedIds] at hi
          exact ih (delete_old_entries st now).1 i hi

/-- The ids a trace assigns are strictly increasing in assignment order —
in particular pairwise distinct, and an id freed by a purge is never handed
out again. -/
lemma assignedIds_pairwise :
    ∀ (ops : List Op) (st : Store), (assignedIds st ops).Pairwise (· < ·) := by
  intro ops
  induction ops with
  | nil => intro st; simp [assignedIds]
  | cons op ops ih =>
      intro st
      cases op with
      | submit d now =>
          rcases h : save_data_body st d now with e | ⟨st', msg⟩
          · rw [assignedIds, h]; exact ih st
          · rw [assignedIds, h]
            refine List.pairwise_cons.mpr ⟨?_, ih st'⟩
            intro i hi
            have := assignedIds_lower_bound ops st' i hi
            have hnext := (save_data_body_ok st d now st' msg h).2.2.2.2
            omega
      | purge now =>
          rw [assignedIds]; exact ih _

/-- Every row present after a trace either carries an id the trace
assigned or was already present before the trace. -/
lemma runOps_row_ids :
    ∀ (ops : List Op) (st : Store), ∀ r ∈ (runOps st ops).rows,
      r.id ∈ assignedIds st ops ∨ r ∈ st.rows := by
  intro ops
  induction ops with
  | nil => intro st r hr; exact Or.inr hr
  | cons op ops ih =>
      intro st r hr
      cases op with
      | submit d now =>
          rw [runOps] at hr
          rcases h : save_data_body st d now with e | ⟨st', msg⟩ <;>
            rw [applyOp, h] at hr
          · rcases ih st r hr with hin | hold
            · left; rw [assignedIds, h]; exact hin
            · exact Or.inr hold
          · rcases ih st' r hr with hin | hold
            · left; rw [assignedIds, h]; exact List.mem_cons_of_mem _ hin
            · have hrows := (save_data_body_ok st d now st' msg h).2.2.2.1
              rw [hrows, List.mem_append] at hold
              rcases hold with hold | hnew
              · exact Or.inr hold
              · left
                rw [assignedIds, h]
                simp only [List.mem_singleton] at hnew
                subst hnew
                exact List.mem_cons_self _ _
      | purge now =>
          rw [runOps] at hr
          rcases ih _ r hr with hin | hold
          · left; rw [assignedIds]; exact hin
          · right
            rw [applyOp] at hold
            exact List.mem_of_mem_filter hold

/-- C9: starting from a fresh database, along any trace of submissions and
purges the store-assigned ids are strictly increasing — hence unique and
never reused, even after the row carrying an id has been purged — and every
persisted row's id is one the store assigned. -/
theorem ids_unique_never_reused (ops : List Op) :
    (assignedIds initStore ops).Pairwise (· < ·)
    ∧ ∀ r ∈ (runOps initStore ops).rows, r.id ∈ assignedIds initStore ops := by
  refine ⟨assignedIds_pairwise ops initStore, fun r hr => ?_⟩
  rcases runOps_row_ids ops initStore r hr with hin | hold
  · exact hin
  · simp [initStore] at hold

/-- The four `(calls, period)` pairs the source configures, one per
endpoint: root page (line 118), submission (line 123), purge (line 164),
search (line 189). -/
def configuredLimits : List (Nat × Nat) :=
  [(100, 60), (10, 60), (5, 3600), (20, 60)]

/-- A first call against a never-seen endpoint initializes the window at
the call's own timestamp and is allowed when the limit is positive. -/
lemma rateLimitStep_first (calls period : Nat) (hc : 1 ≤ calls) (t : Nat) :
    rateLimitStep calls period none t = (true, ⟨t, 1⟩) := by
  unfold rateLimitStep
  simp [Nat.sub_self]
  omega

/-- A call inside the current window of a seen endpoint: rejected with the
window untouched when the counter has reached the limit, otherwise allowed
with the counter incremented. -/
lemma rateLimitStep_in_window (calls period : Nat) (w : Window) (now : Nat)
    (hin : now - w.last_reset < period) :
    rateLimitStep calls period (some w) now
      = if calls ≤ w.call_count then (false, w)
        else (true, ⟨w.last_reset, w.call_count + 1⟩) := by
  unfold rateLimitStep
  simp [Option.getD, Nat.not_le.mpr hin]

/-- A call after the window has elapsed behaves exactly like a call against
a window freshly reset at the call's own timestamp. -/
lemma rateLimitStep_reset (calls period : Nat) (w : Window) (now : Nat)
    (hout : period ≤ now - w.last_reset) :
    rateLimitStep calls period (some w) now
      = rateLimitStep calls period (some ⟨now, 0⟩) now := by
  unfold rateLimitStep
  simp [Option.getD, hout, Nat.sub_self]

/-- Closed form for a run of calls all inside the window that started at
`t0`: with `c` calls already counted, exactly the next `calls - c` are
allowed, every later one is rejected, and the window start never moves. -/
lemma runCalls_window (calls period t0 : Nat) (ts : List Nat) :
    ∀ c, c ≤ calls → (∀ t ∈ ts, t0 ≤ t ∧ t - t0 < period) →
      runCalls calls period (some ⟨t0, c⟩) ts
        = (List.replicate (min ts.length (calls - c)) true
            ++ List.replicate (ts.length - (calls - c)) false,
           some ⟨t0, min (c + ts.length) calls⟩) := by
  induction ts with
  | nil =>
      intro c hc _
      simp [runCalls, Nat.min_eq_left hc]
  | cons t ts ih =>
      intro c hc hwin
      have hw := hwin t (List.mem_cons_self _ _)
      have hwin' : ∀ x ∈ ts, t0 ≤ x ∧ x - t0 < period :=
        fun x hx => hwin x (List.mem_cons_of_mem _ hx)
      have hstep := rateLimitStep_in_window calls period ⟨t0, c⟩ t
        (show t - t0 < period by omega)
      by_cases hfull : calls ≤ c
      · rw [if_pos hfull] at hstep
        simp only [runCalls, hstep, ih c hc hwin']
        have h1 : calls - c = 0 := by omega
        have h2 : min (c + ts.length) calls = calls := by
          simp only [Nat.min_def]; split_ifs <;> omega
        have h3 : min (c + (ts.length + 1)) calls = calls := by
          simp only [Nat.min_def]; split_ifs <;> omega
        have h4 : min ts.length 0 = 0 := Nat.min_zero _
        have h5 : min (ts.length + 1) 0 = 0 := Nat.min_zero _
        simp only [List.length_cons, h1, h2, h3, h4, h5, Nat.sub_zero,
          List.replicate_zero, List.nil_append, List.replicate_succ]
      · rw [if_neg hfull] at hstep
        have hc1 : c + 1 ≤ calls := by omega
        simp only [runCalls, hstep, ih (c + 1) hc1 hwin']
        simp only [Prod.mk.injEq]
        refine ⟨?_, ?_⟩
        · have h1 : min ((t :: ts).length) (calls - c)
              = min ts.length (calls - (c + 1)) + 1 := by
            simp only [List.length_cons, Nat.min_def]; split_ifs <;> omega
          have h2 : (t :: ts).length - (calls - c)
              = ts.length - (calls - (c + 1)) := by
            simp only [List.length_cons]; omega
          rw [h1, h2, List.replicate_succ, List.cons_append]
        · have h3 : min (c + 1 + ts.length) calls
              = min (c + (t :: ts).length) calls := by
            simp only [List.length_cons, Nat.min_def]; split_ifs <;> omega
          rw [h3]

/-- C3: per call, the fixed-window limiter resets the window when the
period has elapsed, rejects when the counter has reached the limit, and
otherwise increments and allows — so for any call times inside the window
opened by the first call, exactly the first `calls` calls succeed and every
later one fails, and a call arriving once the period has elapsed succeeds
again in a fresh window. -/
theorem rate_limiter_fixed_window (calls period : Nat)
    (hc : 1 ≤ calls) (hp : 1 ≤ period)
    (t0 : Nat) (ts : List Nat) (tlate : Nat)
    (hwin : ∀ t ∈ ts, t0 ≤ t ∧ t - t0 < period)
    (hlate : period ≤ tlate - t0) :
    (runCalls calls period none (t0 :: ts)).1
      = List.replicate (min (ts.length + 1) calls) true
        ++ List.replicate ((ts.length + 1) - calls) false
    ∧ rateLimitStep calls period (runCalls calls period none (t0 :: ts)).2 tlate
        = (true, ⟨tlate, 1⟩)
    ∧ (∀ (w : Window) (t : Nat), period ≤ t - w.last_reset →
        rateLimitStep calls period (some w) t
          = rateLimitStep calls period (some ⟨t, 0⟩) t)
    ∧ (∀ (w : Window) (t : Nat), t - w.last_reset < period →
        calls ≤ w.call_count →
        rateLimitStep calls period (some w) t = (false, w))
    ∧ (∀ (w : Window) (t : Nat), t - w.last_reset < period →
        w.call_count < calls →
        rateLimitStep calls period (some w) t
          = (true, ⟨w.last_reset, w.call_count + 1⟩)) := by
  have hfirst := rateLimitStep_first calls period hc t0
  have hrun : runCalls calls period none (t0 :: ts)
      = (true :: (List.replicate (min ts.length (calls - 1)) true
            ++ List.replicate (ts.length - (calls - 1)) false),
         some ⟨t0, min (1 + ts.length) calls⟩) := by
    simp only [runCalls, hfirst]
    rw [runCalls_window calls period t0 ts 1 hc hwin]
  refine ⟨?_, ?_, ?_, ?_, ?_⟩
  · rw [hrun]
    have h1 : min (ts.length + 1) calls = min ts.length (calls - 1) + 1 := by
      simp only [Nat.min_def]; split_ifs <;> omega
    have h2 : (ts.length + 1) - calls = ts.length - (calls - 1) := by omega
    rw [h1, h2, List.replicate_succ, List.cons_append]
  · rw [hrun]
    rw [rateLimitStep_reset calls period ⟨t0, min (1 + ts.length) calls⟩ tlate
      (show period ≤ tlate - t0 by omega)]
    rw [rateLimitStep_in_window calls period ⟨tlate, 0⟩ tlate
      (show tlate - tlate < period by omega)]
    rw [if_neg (show ¬ calls ≤ 0 by omega)]
  · intro w t hout
    exact rateLimitStep_reset calls period w t hout
  · intro w t hin hfull
    rw [rateLimitStep_in_window calls period w t hin, if_pos hfull]
  · intro w t hin hroom
    rw [rateLimitStep_in_window calls period w t hin,
      if_neg (Nat.not_le.mpr hroom)]

/-- Witness for C3 at the spec's own example `limit = 3, period = 60`:
calls at 100, 110, 120, 130 give allow, allow, allow, reject; a call at
161 (period elapsed) is allowed again in a fresh window. -/
theorem rate_limiter_fixed_window_witness :
    (∀ t ∈ [110, 120, 130], 100 ≤ t ∧ t - 100 < 60)
    ∧ 60 ≤ 161 - 100
    ∧ (runCalls 3 60 none (100 :: [110, 120, 130])).1
        = List.replicate (min ([110, 120, 130].length + 1) 3) true
          ++ List.replicate (([110, 120, 130].length + 1) - 3) false
    ∧ callOutcomes 3 60 [100, 110, 120, 130] = [true, true, true, false]
    ∧ rateLimitStep 3 60 (runCalls 3 60 none (100 :: [110, 120, 130])).2 161
        = (true, ⟨161, 1⟩) :=
  ⟨by decide, by decide,
   (rate_limiter_fixed_window 3 60 (by decide) (by decide) 100 [110, 120, 130]
      161 (by decide) (by decide)).1,
   by decide,
   (rate_limiter_fixed_window 3 60 (by decide) (by decide) 100 [110, 120, 130]
      161 (by decide) (by decide)).2.1⟩

/-- A rejected call leaves the window of a seen endpoint untouched,
whenever the configured limit is positive. -/
lemma rateLimit_reject_frame (calls period : Nat) (hc : 1 ≤ calls)
    (w : Window) (now : Nat)
    (hrej : (rateLimitStep calls period (some w) now).1 = false) :
    (rateLimitStep calls period (some w) now).2 = w := by
  unfold rateLimitStep at *
  simp only [Option.getD] at *
  split_ifs at hrej ⊢ with h1 h2 <;> simp_all

/-- C8: for every endpoint configuration of the program, a call the
limiter rejects changes nothing: the counter is not incremented and the
window-start timestamp is not moved. -/
theorem rejected_call_leaves_state (cp : Nat × Nat)
    (hcp : cp ∈ configuredLimits) (w : Window) (now : Nat)
    (hrej : (rateLimitStep cp.1 cp.2 (some w) now).1 = false) :
    (rateLimitStep cp.1 cp.2 (some w) now).2 = w := by
  have hc : 1 ≤ cp.1 := by
    simp only [configuredLimits, List.mem_cons, List.not_mem_nil, or_false] at hcp
    rcases hcp with rfl | rfl | rfl | rfl <;> omega
  exact rateLimit_reject_frame cp.1 cp.2 hc w now hrej

/-- Witness for C8: the submission bucket `(10, 60)` with a full counter
rejects the call at time 120 and its state is exactly what it was. -/
theorem rejected_call_leaves_state_witness :
    ((10, 60) : Nat × Nat) ∈ configuredLimits
    ∧ (rateLimitStep 10 60 (some ⟨100, 10⟩) 120).1 = false
    ∧ (rateLimitStep 10 60 (some ⟨100, 10⟩) 120).2 = ⟨100, 10⟩ :=
  ⟨by decide, by decide,
   rejected_call_leaves_state (10, 60) (by decide) ⟨100, 10⟩ 120 (by decide)⟩

/-- C4 (code bug): the duplicate check and the insert are separate trips to
the shared store with no lock, no transaction spanning both, and no unique
constraint on `(father_id, mother_id)`, so under the interleaving
check₁ → check₂ → insert₁ → insert₂ of two concurrent submissions of the
same `(fatherId, motherId)` pair, both submissions report success and the
table ends up with two rows for the pair — the claimed at-most-one-succeeds
atomicity fails. -/
theorem race_both_submissions_succeed :
    (runSchedule [false, true, false, true] initStore
        (mkThread ⟨idTypeUnified, 7, idTypeUnified, 8,
          "الأم الأولى", "مستشفى الرشيد", "2024-03-01"⟩ 50)
        (mkThread ⟨idTypeCivil, 7, idTypeCivil, 8,
          "الأم الثانية", "مستشفى الكندي", "2024-03-02"⟩ 60)).2.1.outcome
      = some (.ok "تم حفظ البيانات بنجاح")
    ∧ (runSchedule [false, true, false, true] initStore
        (mkThread ⟨idTypeUnified, 7, idTypeUnified, 8,
          "الأم الأولى", "مستشفى الرشيد", "2024-03-01"⟩ 50)
        (mkThread ⟨idTypeCivil, 7, idTypeCivil, 8,
          "الأم الثانية", "مستشفى الكندي", "2024-03-02"⟩ 60)).2.2.outcome
      = some (.ok "تم حفظ البيانات بنجاح")
    ∧ (findByParents (runSchedule [false, true, false, true] initStore
        (mkThread ⟨idTypeUnified, 7, idTypeUnified, 8,
          "الأم الأولى", "مستشفى الرشيد", "2024-03-01"⟩ 50)
        (mkThread ⟨idTypeCivil, 7, idTypeCivil, 8,
          "الأم الثانية", "مستشفى الكندي", "2024-03-02"⟩ 60)).1 7 8).length = 2 :=
  ⟨rfl, rfl, rfl⟩

end BirthRegistry
